import Mathlib

/-!
Verification development for the wp-block-template block.

The file embeds the attribute schema and the two render paths of the
repository: the editor component in edit.tsx and the server template in
render.php.  Pure data is modelled with structures, the string-keyed
attributes array given to the server template is modelled as an
association list, and numbers carried by attributes are modelled as
rationals.  Theorems at the end of the file settle the specification
claims against these definitions.
-/

/-- Four-sided padding record, as in the BlockAttributes interface of edit.tsx. -/
structure Padding where
  top : ℚ
  bottom : ℚ
  left : ℚ
  right : ℚ
  deriving DecidableEq

/-- The block attributes, transcribed from the BlockAttributes interface in
edit.tsx.  The alignment union type of the strings left, center and right is
modelled as String. -/
structure BlockAttributes where
  title : String
  showTitle : Bool
  titleTextColor : String
  titleFontSize : ℚ
  content : String
  contentTextColor : String
  contentFontSize : ℚ
  backgroundColor : String
  padding : Padding
  alignment : String
  deriving DecidableEq

/-- Partial padding record as it may arrive in the serialized attributes
array: any side may be absent. -/
structure PaddingPartial where
  top : Option ℚ
  bottom : Option ℚ
  left : Option ℚ
  right : Option ℚ
  deriving DecidableEq

/-- A JSON-like attribute value as stored in the attributes array that the
host passes to render.php. -/
inductive AttrValue where
  | str (s : String)
  | num (q : ℚ)
  | flag (b : Bool)
  | pad (p : PaddingPartial)
  deriving DecidableEq

/-- The string-keyed attributes array exposed to render.php. -/
abbrev AttrMap : Type := List (String × AttrValue)

/-- String-valued attribute lookup; a missing key or a value of another
shape yields none. -/
def lookupStr (m : AttrMap) (k : String) : Option String :=
  match m.lookup k with
  | some (AttrValue.str s) => some s
  | _ => none

/-- Numeric attribute lookup. -/
def lookupNum (m : AttrMap) (k : String) : Option ℚ :=
  match m.lookup k with
  | some (AttrValue.num q) => some q
  | _ => none

/-- Boolean attribute lookup. -/
def lookupFlag (m : AttrMap) (k : String) : Option Bool :=
  match m.lookup k with
  | some (AttrValue.flag b) => some b
  | _ => none

/-- Padding-record attribute lookup. -/
def lookupPad (m : AttrMap) (k : String) : Option PaddingPartial :=
  match m.lookup k with
  | some (AttrValue.pad p) => some p
  | _ => none

/-- Serialization of the editor attributes into the attributes array: one
entry per attribute declared by the block, under the keys used by edit.tsx.
In particular the content text color is stored under contentTextColor and
no entry named contentColor exists. -/
def toAttrMap (a : BlockAttributes) : AttrMap :=
  [("title", AttrValue.str a.title),
   ("showTitle", AttrValue.flag a.showTitle),
   ("titleTextColor", AttrValue.str a.titleTextColor),
   ("titleFontSize", AttrValue.num a.titleFontSize),
   ("content", AttrValue.str a.content),
   ("contentTextColor", AttrValue.str a.contentTextColor),
   ("contentFontSize", AttrValue.num a.contentFontSize),
   ("backgroundColor", AttrValue.str a.backgroundColor),
   ("padding", AttrValue.pad
      ⟨some a.padding.top, some a.padding.bottom, some a.padding.left, some a.padding.right⟩),
   ("alignment", AttrValue.str a.alignment)]

/-- Shared numeral formatter standing for the default number-to-string
conversion that both the PHP echo and the JS template literal perform on
the stored numeric attribute values. -/
def numStr (q : ℚ) : String :=
  if q.den = 1 then toString q.num else toString q.num ++ "/" ++ toString q.den

/-- A possibly missing padding side as echoed by render.php: PHP prints an
absent array entry as the empty string. -/
def padSideStr (o : Option ℚ) : String :=
  match o with
  | some q => numStr q
  | none => ""

/-- The local variables computed at the top of render.php (lines 15 to 31),
with the snake-case names of the source. -/
structure StaticVars where
  title : String
  show_title : Bool
  title_color : String
  title_size : ℚ
  content : String
  content_color : String
  content_size : ℚ
  background_color : String
  padding : PaddingPartial
  alignment : String
  deriving DecidableEq

/-- Attribute defaulting performed by render.php: each variable takes the
attribute value when its key is present and the literal fallback otherwise.
The padding record is defaulted as a whole, and the content color is read
from the key contentColor, exactly as in the source file. -/
def withDefaultsStatic (m : AttrMap) : StaticVars where
  title := (lookupStr m "title").getD "Block Title"
  show_title := (lookupFlag m "showTitle").getD true
  title_color := (lookupStr m "titleTextColor").getD "#1a202c"
  title_size := (lookupNum m "titleFontSize").getD 3
  content := (lookupStr m "content").getD "Add your content here..."
  content_color := (lookupStr m "contentColor").getD "#4a5568"
  content_size := (lookupNum m "contentFontSize").getD 1
  background_color := (lookupStr m "backgroundColor").getD "#ffffff"
  padding := (lookupPad m "padding").getD ⟨some 2, some 2, some 2, some 2⟩
  alignment := (lookupStr m "alignment").getD "center"

/-- Computed style of the container element. -/
structure ContainerStyle where
  padding : String
  backgroundColor : String
  alignItems : String
  deriving DecidableEq

/-- Computed style of a text element. -/
structure TextStyle where
  color : String
  fontSize : String
  deriving DecidableEq

/-- Structural content of the markup produced by render.php: the container
style, the h2 element (style and text) when present, and the p element.
Style fields hold the computed values after attribute decoding; the escaped
byte output is renderStaticHTML below. -/
structure StaticRender where
  container : ContainerStyle
  title : Option (TextStyle × String)
  content : TextStyle × String
  deriving DecidableEq

/-- The static render of render.php (lines 34 to 37).  The h2 element is
emitted unconditionally: the source computes show_title but never tests
it. -/
def renderStatic (m : AttrMap) : StaticRender :=
  let v := withDefaultsStatic m
  { container :=
      { padding := padSideStr v.padding.top ++ "rem " ++ padSideStr v.padding.right ++ "rem "
          ++ padSideStr v.padding.bottom ++ "rem " ++ padSideStr v.padding.left ++ "rem"
        backgroundColor := v.background_color
        alignItems := v.alignment }
    title := some ({ color := v.title_color, fontSize := numStr v.title_size ++ "rem" }, v.title)
    content := ({ color := v.content_color, fontSize := numStr v.content_size ++ "rem" },
      v.content) }

/-- Current value carried by an inspector control. -/
inductive ControlValue where
  | s (v : String)
  | q (v : ℚ)
  | flag (v : Bool)
  deriving DecidableEq

/-- One inspector control: its label, its current value, its numeric range
when it is a range control, and its option values when it is a select. -/
structure Control where
  label : String
  value : ControlValue
  minValue : Option ℚ
  maxValue : Option ℚ
  options : Option (List String)
  deriving DecidableEq

/-- The settings panel of edit.tsx (InspectorControls, lines 103 to 201):
the Show Title toggle, the title font size range rendered only while
showTitle is true, the content font size range, the content text color
select, the four padding side ranges, and the three color settings. -/
def inspectorControls (a : BlockAttributes) : List Control :=
  [⟨"Show Title", ControlValue.flag a.showTitle, none, none, none⟩]
  ++ (if a.showTitle then
        [⟨"Title Font Size (rem)", ControlValue.q a.titleFontSize, some (1/10), some 5, none⟩]
      else [])
  ++ [⟨"Content Font Size", ControlValue.q a.contentFontSize, some (1/10), some 20, none⟩,
      ⟨"Content Text Color", ControlValue.s a.contentTextColor, none, none,
        some ["#000000", "#ffffff", "#808080"]⟩,
      ⟨"Padding Top (rem)", ControlValue.q a.padding.top, some 0, some 10, none⟩,
      ⟨"Padding Bottom (rem)", ControlValue.q a.padding.bottom, some 0, some 10, none⟩,
      ⟨"Padding Left (rem)", ControlValue.q a.padding.left, some 0, some 10, none⟩,
      ⟨"Padding Right (rem)", ControlValue.q a.padding.right, some 0, some 10, none⟩,
      ⟨"Background Color", ControlValue.s a.backgroundColor, none, none, none⟩,
      ⟨"Title Color", ControlValue.s a.titleTextColor, none, none, none⟩,
      ⟨"Content Color", ControlValue.s a.contentTextColor, none, none, none⟩]

/-- The editor render: the inspector controls plus the preview section. -/
structure EditableRender where
  controls : List Control
  container : ContainerStyle
  title : Option (TextStyle × String)
  content : TextStyle × String
  deriving DecidableEq

/-- The Edit component of edit.tsx: the inspector controls and the preview
section whose styles are built from the attributes (lines 204 to 235); the
h2 is rendered only while showTitle is true. -/
def Edit (a : BlockAttributes) : EditableRender where
  controls := inspectorControls a
  container :=
    { padding := numStr a.padding.top ++ "rem " ++ numStr a.padding.right ++ "rem "
        ++ numStr a.padding.bottom ++ "rem " ++ numStr a.padding.left ++ "rem"
      backgroundColor := a.backgroundColor
      alignItems := a.alignment }
  title :=
    if a.showTitle then
      some ({ color := a.titleTextColor, fontSize := numStr a.titleFontSize ++ "rem" }, a.title)
    else none
  content := ({ color := a.contentTextColor, fontSize := numStr a.contentFontSize ++ "rem" },
    a.content)

/-- onChange handler of the title font size range control (edit.tsx line
116): the value is stored unchanged. -/
def onChangeTitleFontSize (a : BlockAttributes) (value : ℚ) : BlockAttributes :=
  { a with titleFontSize := value }

/-- onChange handler of the content font size range control (edit.tsx line
126): the value is stored unchanged. -/
def onChangeContentFontSize (a : BlockAttributes) (value : ℚ) : BlockAttributes :=
  { a with contentFontSize := value }

/-- onChange handler of the padding top range control (edit.tsx line 146):
the current padding record is spread and the top side replaced; a missing
value is coalesced to 0. -/
def onChangePaddingTop (a : BlockAttributes) (value : Option ℚ) : BlockAttributes :=
  { a with padding := { a.padding with top := value.getD 0 } }

/-- onChange handler of the padding bottom range control (edit.tsx line 155). -/
def onChangePaddingBottom (a : BlockAttributes) (value : Option ℚ) : BlockAttributes :=
  { a with padding := { a.padding with bottom := value.getD 0 } }

/-- onChange handler of the padding left range control (edit.tsx line 164). -/
def onChangePaddingLeft (a : BlockAttributes) (value : Option ℚ) : BlockAttributes :=
  { a with padding := { a.padding with left := value.getD 0 } }

/-- onChange handler of the padding right range control (edit.tsx line 173). -/
def onChangePaddingRight (a : BlockAttributes) (value : Option ℚ) : BlockAttributes :=
  { a with padding := { a.padding with right := value.getD 0 } }

/-- onChange handler of the Show Title toggle (edit.tsx line 109). -/
def onChangeShowTitle (a : BlockAttributes) (value : Bool) : BlockAttributes :=
  { a with showTitle := value }

/-- Entity replacement of one character, modelling the WordPress special
character escaping used by esc_html and esc_attr. -/
def escChar (c : Char) : String :=
  if c == '&' then "&amp;"
  else if c == '<' then "&lt;"
  else if c == '>' then "&gt;"
  else if c == '"' then "&quot;"
  else if c == Char.ofNat 39 then "&#039;"
  else String.singleton c

/-- Entity replacement over a list of characters. -/
def escList : List Char → String
  | [] => ""
  | c :: cs => escChar c ++ escList cs

/-- Model of the WordPress esc_html function. -/
def escHtml (s : String) : String := escList s.data

/-- Model of the WordPress esc_attr function; on the escaped character set
it performs the same replacements as esc_html. -/
def escAttr (s : String) : String := escList s.data

/-- Model of the get_block_wrapper_attributes call of render.php with the
class test-block. -/
def wrapperAttributes : String := "class=\"test-block\""

/-- The byte output of render.php (lines 34 to 37): every interpolated
style value passes through escAttr and the title and content texts pass
through escHtml. -/
def renderStaticHTML (m : AttrMap) : String :=
  let v := withDefaultsStatic m
  "<section " ++ wrapperAttributes ++ " style=\"padding: "
    ++ escAttr (padSideStr v.padding.top) ++ "rem "
    ++ escAttr (padSideStr v.padding.right) ++ "rem "
    ++ escAttr (padSideStr v.padding.bottom) ++ "rem "
    ++ escAttr (padSideStr v.padding.left)
    ++ "rem; background-color: " ++ escAttr v.background_color
    ++ "; align-items: " ++ escAttr v.alignment ++ ";\">\n"
    ++ "    <h2 style=\"color: " ++ escAttr v.title_color ++ "; font-size: "
    ++ escAttr (numStr v.title_size) ++ "rem;\">" ++ escHtml v.title ++ "</h2>\n"
    ++ "    <p style=\"color: " ++ escAttr v.content_color ++ "; font-size: "
    ++ escAttr (numStr v.content_size) ++ "rem;\">" ++ escHtml v.content ++ "</p>\n"
    ++ "</section>"

/-- A string is markup free when it contains no tag delimiter and no double
quote, so inside the template it can neither open an element nor close a
quoted attribute value. -/
def markupFreeB (s : String) : Bool :=
  s.data.all fun c => !(c == '<') && !(c == '>') && !(c == '"')

/-- A concrete, fully populated attribute set used for concrete
evaluations. -/
def sampleAttributes : BlockAttributes where
  title := "Block Title"
  showTitle := true
  titleTextColor := "#1a202c"
  titleFontSize := 3
  content := "Add your content here..."
  contentTextColor := "#4a5568"
  contentFontSize := 1
  backgroundColor := "#ffffff"
  padding := ⟨2, 2, 2, 2⟩
  alignment := "center"

theorem markupFreeB_append (s t : String) :
    markupFreeB (s ++ t) = (markupFreeB s && markupFreeB t) := by
  cases s with
  | mk ds =>
    cases t with
    | mk dt =>
      simp [markupFreeB, String.data, List.all_append]

theorem markupFreeB_escChar (c : Char) : markupFreeB (escChar c) = true := by
  unfold escChar
  split_ifs with h1 h2 h3 h4 h5 <;>
    simp_all [markupFreeB, String.singleton]

theorem markupFreeB_escList (l : List Char) : markupFreeB (escList l) = true := by
  induction l with
  | nil => rfl
  | cons c cs ih =>
    rw [escList, markupFreeB_append, markupFreeB_escChar, ih]
    rfl

/-- Attribute set for the C1 evaluation: the sample attributes with the
content text color set to black. -/
def attrsC1 : BlockAttributes := { sampleAttributes with contentTextColor := "#000000" }

/-- Attribute set for the C2 evaluation: the sample attributes with the
title toggled off. -/
def attrsC2 : BlockAttributes := { sampleAttributes with showTitle := false }

/-- Attribute set for the C3 evaluation: a distinctive content text color. -/
def attrsC3 : BlockAttributes := { sampleAttributes with contentTextColor := "#123456" }

/-- Attributes array for the C4 evaluation: a padding record with only the
top side present. -/
def mapC4 : AttrMap := [("padding", AttrValue.pad ⟨some 5, none, none, none⟩)]

/-- Attributes array for the C7 evaluation: a padding record with only the
top side present. -/
def mapC7 : AttrMap := [("padding", AttrValue.pad ⟨some 4, none, none, none⟩)]

/-- Attribute set for the C9 evaluation, with field values distinct from
every other value appearing in the controls. -/
def attrsC9 : BlockAttributes where
  title := "T-title"
  showTitle := false
  titleTextColor := "#111111"
  titleFontSize := 7
  content := "T-content"
  contentTextColor := "#222222"
  contentFontSize := 9
  backgroundColor := "#333333"
  padding := ⟨4, 5, 6, 8⟩
  alignment := "left"

/-- C1: the two render paths do not produce identical computed styles.  At
an attribute set whose content text color is black, the editable render
styles the content with that color while the static render styles it with
the fallback value, because render.php reads the attribute key contentColor,
which the block never defines, instead of contentTextColor. -/
theorem claim_C1 :
    (Edit attrsC1).content.1.color = "#000000" ∧
    (renderStatic (toAttrMap attrsC1)).content.1.color = "#4a5568" ∧
    ("#000000" : String) ≠ "#4a5568" := by
  refine ⟨rfl, rfl, by decide⟩

/-- C2: the static render contains a title element even when showTitle is
false: render.php computes the show_title variable but never tests it, so
the h2 element is emitted unconditionally, while the editor preview omits
it. -/
theorem claim_C2 :
    attrsC2.showTitle = false ∧
    (renderStatic (toAttrMap attrsC2)).title =
      some ({ color := "#1a202c", fontSize := "3rem" }, "Block Title") ∧
    (Edit attrsC2).title = none := by
  refine ⟨rfl, by decide, rfl⟩

/-- C3: a contentTextColor value supplied in the input does not determine
the content color of the static render: the editable render uses it, but
render.php looks the color up under the key contentColor, which the
serialized attributes never contain, so the static content color is always
the fallback value. -/
theorem claim_C3 :
    (Edit attrsC3).content.1.color = "#123456" ∧
    (renderStatic (toAttrMap attrsC3)).content.1.color = "#4a5568" ∧
    lookupStr (toAttrMap attrsC3) "contentColor" = none ∧
    lookupStr (toAttrMap attrsC3) "contentTextColor" = some "#123456" := by
  refine ⟨rfl, rfl, by decide, by decide⟩

/-- C4 counterexample: a padding record that is present but missing sides
is not merged against the defaults; the absent sides stay undefined after
the defaulting step of render.php. -/
theorem claim_C4_counterexample :
    (withDefaultsStatic mapC4).padding.top = some 5 ∧
    (withDefaultsStatic mapC4).padding.bottom = none ∧
    (withDefaultsStatic mapC4).padding.left = none ∧
    (withDefaultsStatic mapC4).padding.right = none := by
  decide

/-- C4 amended: defaulting before the static render fills every absent
top-level field with its stated default, and a wholly absent padding record
defaults to 2 on every side; every top-level field present in the
serialized attributes is preserved, except that the content color is read
from the unused key contentColor and therefore always takes its fallback.
Only a padding record present with missing sides keeps those sides
undefined. -/
theorem claim_C4 :
    withDefaultsStatic [] =
      { title := "Block Title", show_title := true, title_color := "#1a202c",
        title_size := 3, content := "Add your content here...",
        content_color := "#4a5568", content_size := 1, background_color := "#ffffff",
        padding := ⟨some 2, some 2, some 2, some 2⟩, alignment := "center" } ∧
    ∀ a : BlockAttributes, withDefaultsStatic (toAttrMap a) =
      { title := a.title, show_title := a.showTitle, title_color := a.titleTextColor,
        title_size := a.titleFontSize, content := a.content, content_color := "#4a5568",
        content_size := a.contentFontSize, background_color := a.backgroundColor,
        padding := ⟨some a.padding.top, some a.padding.bottom, some a.padding.left,
          some a.padding.right⟩,
        alignment := a.alignment } := by
  refine ⟨by decide, fun a => rfl⟩

/-- C5 counterexample: the update handlers store out-of-range values
unchanged, and such values are rendered as they are: assigning 999 to the
title font size stores 999 and both render paths emit a 999rem font size,
and assigning -5 to the top padding stores -5. -/
theorem claim_C5_counterexample :
    (onChangeTitleFontSize sampleAttributes 999).titleFontSize = 999 ∧
    (onChangePaddingTop sampleAttributes (some (-5))).padding.top = -5 ∧
    (Edit (onChangeTitleFontSize sampleAttributes 999)).title =
      some ({ color := "#1a202c", fontSize := "999rem" }, "Block Title") ∧
    (renderStatic (toAttrMap (onChangeTitleFontSize sampleAttributes 999))).title =
      some ({ color := "#1a202c", fontSize := "999rem" }, "Block Title") := by
  refine ⟨by decide, by decide, by decide, by decide⟩

/-- C5 amended: the stated numeric ranges appear only as the bounds carried
by the editor range controls (title font size 1/10 to 5, content font size
1/10 to 20, padding sides 0 to 10); the onChange handlers store the given
value without clamping, a missing padding value being coalesced to 0, so no
clamping happens at the point of assignment. -/
theorem claim_C5 (a : BlockAttributes) (v : ℚ) (w : ℚ) :
    (onChangeTitleFontSize a v).titleFontSize = v ∧
    (onChangeContentFontSize a v).contentFontSize = v ∧
    (onChangePaddingTop a (some w)).padding.top = w ∧
    (onChangePaddingTop a none).padding.top = 0 ∧
    (⟨"Title Font Size (rem)", ControlValue.q a.titleFontSize, some (1/10), some 5, none⟩ :
      Control) ∈ inspectorControls { a with showTitle := true } ∧
    (⟨"Content Font Size", ControlValue.q a.contentFontSize, some (1/10), some 20, none⟩ :
      Control) ∈ inspectorControls a ∧
    (⟨"Padding Top (rem)", ControlValue.q a.padding.top, some 0, some 10, none⟩ :
      Control) ∈ inspectorControls a := by
  refine ⟨rfl, rfl, rfl, rfl, by simp [inspectorControls], ?_, ?_⟩ <;>
    cases h : a.showTitle <;> simp [inspectorControls, h]

/-- C6: a single-side padding update through an editing-surface handler
stores the given value on that side and preserves the other three sides;
in particular updating the top of an all-2 record to 4 yields the record
with top 4 and the other sides 2. -/
theorem claim_C6 (a : BlockAttributes) (v : ℚ) (o : Option ℚ) :
    (onChangePaddingTop a (some v)).padding = { a.padding with top := v } ∧
    (onChangePaddingBottom a (some v)).padding = { a.padding with bottom := v } ∧
    (onChangePaddingLeft a (some v)).padding = { a.padding with left := v } ∧
    (onChangePaddingRight a (some v)).padding = { a.padding with right := v } ∧
    (onChangePaddingTop a o).padding.bottom = a.padding.bottom ∧
    (onChangePaddingTop a o).padding.left = a.padding.left ∧
    (onChangePaddingTop a o).padding.right = a.padding.right ∧
    (onChangePaddingTop sampleAttributes (some 4)).padding = ⟨4, 2, 2, 2⟩ := by
  refine ⟨rfl, rfl, rfl, rfl, rfl, rfl, rfl, by decide⟩

/-- C7 counterexample: a padding record carrying only a top side of 4 is
rendered as the string 4rem rem rem rem, with the three missing sides
emitted as empty values, not merged to the default 2. -/
theorem claim_C7_counterexample :
    (renderStatic mapC7).container.padding = "4rem rem rem rem" ∧
    (renderStatic mapC7).container.padding ≠ "4rem 2rem 2rem 2rem" := by
  decide

/-- C7 amended: a padding record present in the attributes is used exactly
as supplied, each missing side rendering as an empty value, while a wholly
absent padding record defaults to 2 on every side. -/
theorem claim_C7 (p : PaddingPartial) (rest : AttrMap) :
    (renderStatic (("padding", AttrValue.pad p) :: rest)).container.padding =
      padSideStr p.top ++ "rem " ++ padSideStr p.right ++ "rem "
        ++ padSideStr p.bottom ++ "rem " ++ padSideStr p.left ++ "rem" ∧
    (renderStatic []).container.padding = "2rem 2rem 2rem 2rem" := by
  refine ⟨rfl, by decide⟩

/-- C8: both render paths give the container the padding shorthand string
with the sides in top, right, bottom, left order, the background color, and
the alignment as align-items. -/
theorem claim_C8 (a : BlockAttributes) :
    (Edit a).container =
      { padding := numStr a.padding.top ++ "rem " ++ numStr a.padding.right ++ "rem "
          ++ numStr a.padding.bottom ++ "rem " ++ numStr a.padding.left ++ "rem",
        backgroundColor := a.backgroundColor, alignItems := a.alignment } ∧
    (renderStatic (toAttrMap a)).container =
      { padding := numStr a.padding.top ++ "rem " ++ numStr a.padding.right ++ "rem "
          ++ numStr a.padding.bottom ++ "rem " ++ numStr a.padding.left ++ "rem",
        backgroundColor := a.backgroundColor, alignItems := a.alignment } := by
  exact ⟨rfl, rfl⟩

/-- C9 counterexample: at an attribute set whose alignment, title font
size, title and content are distinct from every other field value, no
inspector control carries any of those current values: the settings panel
has no control for the alignment, none for the title text, none for the
content text, and none for the title font size while showTitle is false. -/
theorem claim_C9_counterexample :
    attrsC9.alignment = "left" ∧
    ControlValue.s "left" ∉ (inspectorControls attrsC9).map Control.value ∧
    attrsC9.titleFontSize = 7 ∧
    ControlValue.q 7 ∉ (inspectorControls attrsC9).map Control.value ∧
    attrsC9.title = "T-title" ∧
    ControlValue.s "T-title" ∉ (inspectorControls attrsC9).map Control.value ∧
    attrsC9.content = "T-content" ∧
    ControlValue.s "T-content" ∉ (inspectorControls attrsC9).map Control.value := by
  decide

/-- C9 amended: the settings panel carries one control with the current
value and stated range or options for each of showTitle, contentFontSize,
contentTextColor, the four padding sides, backgroundColor, titleTextColor
and the content color, plus a titleFontSize range control only while
showTitle is true; the panel is independent of the title, content and
alignment fields, which have no control. -/
theorem claim_C9 (a : BlockAttributes) (t c x : String) :
    inspectorControls { a with title := t, content := c, alignment := x } =
      inspectorControls a ∧
    (⟨"Show Title", ControlValue.flag a.showTitle, none, none, none⟩ : Control)
      ∈ inspectorControls a ∧
    (⟨"Content Text Color", ControlValue.s a.contentTextColor, none, none,
        some ["#000000", "#ffffff", "#808080"]⟩ : Control) ∈ inspectorControls a ∧
    (⟨"Padding Bottom (rem)", ControlValue.q a.padding.bottom, some 0, some 10, none⟩ :
      Control) ∈ inspectorControls a ∧
    (⟨"Padding Left (rem)", ControlValue.q a.padding.left, some 0, some 10, none⟩ :
      Control) ∈ inspectorControls a ∧
    (⟨"Padding Right (rem)", ControlValue.q a.padding.right, some 0, some 10, none⟩ :
      Control) ∈ inspectorControls a ∧
    (⟨"Background Color", ControlValue.s a.backgroundColor, none, none, none⟩ : Control)
      ∈ inspectorControls a ∧
    (⟨"Title Color", ControlValue.s a.titleTextColor, none, none, none⟩ : Control)
      ∈ inspectorControls a ∧
    (⟨"Content Color", ControlValue.s a.contentTextColor, none, none, none⟩ : Control)
      ∈ inspectorControls a ∧
    (⟨"Title Font Size (rem)", ControlValue.q a.titleFontSize, some (1/10), some 5, none⟩ :
      Control) ∈ inspectorControls { a with showTitle := true } ∧
    inspectorControls { a with showTitle := false } =
      [⟨"Show Title", ControlValue.flag false, none, none, none⟩,
       ⟨"Content Font Size", ControlValue.q a.contentFontSize, some (1/10), some 20, none⟩,
       ⟨"Content Text Color", ControlValue.s a.contentTextColor, none, none,
         some ["#000000", "#ffffff", "#808080"]⟩,
       ⟨"Padding Top (rem)", ControlValue.q a.padding.top, some 0, some 10, none⟩,
       ⟨"Padding Bottom (rem)", ControlValue.q a.padding.bottom, some 0, some 10, none⟩,
       ⟨"Padding Left (rem)", ControlValue.q a.padding.left, some 0, some 10, none⟩,
       ⟨"Padding Right (rem)", ControlValue.q a.padding.right, some 0, some 10, none⟩,
       ⟨"Background Color", ControlValue.s a.backgroundColor, none, none, none⟩,
       ⟨"Title Color", ControlValue.s a.titleTextColor, none, none, none⟩,
       ⟨"Content Color", ControlValue.s a.contentTextColor, none, none, none⟩] := by
  refine ⟨rfl, ?_, ?_, ?_, ?_, ?_, ?_, ?_, ?_, by simp [inspectorControls], rfl⟩ <;>
    cases h : a.showTitle <;> simp [inspectorControls, h]

/-- C10: in the byte output of the static render every interpolated value
is escaped: the style values pass through escAttr and the title and content
texts pass through escHtml, and every escaped value is free of tag
delimiters and double quotes, so no attribute value can inject raw markup
into the static output. -/
theorem claim_C10 (m : AttrMap) :
    markupFreeB (escAttr (padSideStr (withDefaultsStatic m).padding.top)) = true ∧
    markupFreeB (escAttr (padSideStr (withDefaultsStatic m).padding.right)) = true ∧
    markupFreeB (escAttr (padSideStr (withDefaultsStatic m).padding.bottom)) = true ∧
    markupFreeB (escAttr (padSideStr (withDefaultsStatic m).padding.left)) = true ∧
    markupFreeB (escAttr (withDefaultsStatic m).background_color) = true ∧
    markupFreeB (escAttr (withDefaultsStatic m).alignment) = true ∧
    markupFreeB (escAttr (withDefaultsStatic m).title_color) = true ∧
    markupFreeB (escAttr (numStr (withDefaultsStatic m).title_size)) = true ∧
    markupFreeB (escAttr (withDefaultsStatic m).content_color) = true ∧
    markupFreeB (escAttr (numStr (withDefaultsStatic m).content_size)) = true ∧
    markupFreeB (escHtml (withDefaultsStatic m).title) = true ∧
    markupFreeB (escHtml (withDefaultsStatic m).content) = true ∧
    renderStaticHTML m =
      "<section " ++ wrapperAttributes ++ " style=\"padding: "
        ++ escAttr (padSideStr (withDefaultsStatic m).padding.top) ++ "rem "
        ++ escAttr (padSideStr (withDefaultsStatic m).padding.right) ++ "rem "
        ++ escAttr (padSideStr (withDefaultsStatic m).padding.bottom) ++ "rem "
        ++ escAttr (padSideStr (withDefaultsStatic m).padding.left)
        ++ "rem; background-color: " ++ escAttr (withDefaultsStatic m).background_color
        ++ "; align-items: " ++ escAttr (withDefaultsStatic m).alignment ++ ";\">\n"
        ++ "    <h2 style=\"color: " ++ escAttr (withDefaultsStatic m).title_color
        ++ "; font-size: " ++ escAttr (numStr (withDefaultsStatic m).title_size)
        ++ "rem;\">" ++ escHtml (withDefaultsStatic m).title ++ "</h2>\n"
        ++ "    <p style=\"color: " ++ escAttr (withDefaultsStatic m).content_color
        ++ "; font-size: " ++ escAttr (numStr (withDefaultsStatic m).content_size)
        ++ "rem;\">" ++ escHtml (withDefaultsStatic m).content ++ "</p>\n"
        ++ "</section>" := by
  refine ⟨markupFreeB_escList _, markupFreeB_escList _, markupFreeB_escList _,
    markupFreeB_escList _, markupFreeB_escList _, markupFreeB_escList _,
    markupFreeB_escList _, markupFreeB_escList _, markupFreeB_escList _,
    markupFreeB_escList _, markupFreeB_escList _, markupFreeB_escList _, rfl⟩
